import Mathlib

/-!
Shallow embedding of the BME280 sensor driver (bme280_driver.h / bme280_driver.cpp).

Machine integers are modelled as mathematical integers with explicit
two's-complement wrap-around (`w32`, `w64`), arithmetic right shift as floor
division (`asr`), conversion to `uint32_t` as `toU32`, and the C conversions
from `int` to `int16_t` / `int8_t` of the calibration decoder as `s16` / `s8`.
The I2C bus delivers bytes, modelled by reducing every register response
modulo 256 (`readReg`).
-/

namespace BME280

/-- Two's-complement wrap of an integer to signed 32-bit range. -/
def w32 (x : Int) : Int := (x + 2147483648) % 4294967296 - 2147483648

/-- Two's-complement wrap of an integer to signed 64-bit range. -/
def w64 (x : Int) : Int :=
  (x + 9223372036854775808) % 18446744073709551616 - 9223372036854775808

/-- Arithmetic right shift by n bits (C signed right shift): floor division. -/
def asr (x : Int) (n : Nat) : Int := Int.fdiv x (2 ^ n)

/-- C cast of a signed 64-bit value to uint32_t: reduction modulo 2^32. -/
def toU32 (x : Int) : Int := x % 4294967296

/-- C conversion of an int value in [0, 65535] to int16_t. -/
def s16 (n : Nat) : Int := if n < 32768 then (n : Int) else (n : Int) - 65536

/-- C conversion of a byte value to int8_t (the cast on dig_H6). -/
def s8 (n : Nat) : Int := if n < 128 then (n : Int) else (n : Int) - 256

theorem asr_eq_ediv (x : Int) (n : Nat) : asr x n = x / (2 ^ n : Int) :=
  Int.fdiv_eq_ediv x (by positivity)

/- Register addresses from bme280_driver.h. -/

def BME280_REG_ID : Nat := 0xD0
def BME280_REG_RESET : Nat := 0xE0
def BME280_REG_STATUS : Nat := 0xF3
def BME280_REG_CTRL_MEAS : Nat := 0xF4
def BME280_REG_CONFIG : Nat := 0xF5
def BME280_REG_CTRL_HUM : Nat := 0xF2
def BME280_REG_PRESS_MSB : Nat := 0xF7
def BME280_REG_TEMP_MSB : Nat := 0xFA
def BME280_REG_HUM_MSB : Nat := 0xFD
def BME280_REG_DIG_T1 : Nat := 0x88
def BME280_REG_DIG_H1 : Nat := 0xA1
def BME280_REG_DIG_H2 : Nat := 0xE1

/- Oversampling / mode constants from bme280_driver.h. -/

def BME280_TEMP_OSR : Nat := 0x01
def BME280_PRES_OSR : Nat := 0x01
def BME280_HUM_OSR : Nat := 0x01
def BME280_MODE : Nat := 0x03

/-- The calibration coefficient record (BME280_CalibrationData in the header).
Fields carry the integer value held by the C field; the unsigned fields
(dig_T1, dig_P1, dig_H1, dig_H3) hold values in [0, 2^16) resp. [0, 2^8),
the signed ones values of int16_t resp. int8_t. -/
structure BME280_CalibrationData where
  dig_T1 : Int
  dig_T2 : Int
  dig_T3 : Int
  dig_P1 : Int
  dig_P2 : Int
  dig_P3 : Int
  dig_P4 : Int
  dig_P5 : Int
  dig_P6 : Int
  dig_P7 : Int
  dig_P8 : Int
  dig_P9 : Int
  dig_H1 : Int
  dig_H2 : Int
  dig_H3 : Int
  dig_H4 : Int
  dig_H5 : Int
  dig_H6 : Int
deriving Repr, DecidableEq

/-- Mutable per-instance driver state: the calibration record and t_fine.
(The bus handle and device address are immutable configuration.) -/
structure DriverState where
  calibData : BME280_CalibrationData
  t_fine : Int
deriving Repr, DecidableEq

/-- Static register map seen by the measurement-read operations: a byte per
register address (responses reduced mod 256, as the bus returns bytes). -/
def Regs : Type := Nat → Nat

/-- readRegister for the static map: one byte. -/
def readReg (regs : Regs) (r : Nat) : Nat := regs r % 256

/- === Temperature compensation (bme280_driver.cpp lines 212-226) === -/

/-- First term of the temperature formula:
var1 = ((((adcTemp >> 3) - ((int32_t)dig_T1 << 1))) * ((int32_t)dig_T2)) >> 11. -/
def tVar1 (c : BME280_CalibrationData) (adcTemp : Int) : Int :=
  asr (w32 (w32 (asr adcTemp 3 - w32 (c.dig_T1 * 2)) * c.dig_T2)) 11

/-- Second term of the temperature formula:
var2 = (((((adcTemp >> 4) - dig_T1) * ((adcTemp >> 4) - dig_T1)) >> 12) * dig_T3) >> 14. -/
def tVar2 (c : BME280_CalibrationData) (adcTemp : Int) : Int :=
  asr (w32 (asr (w32 (w32 (asr adcTemp 4 - c.dig_T1) * w32 (asr adcTemp 4 - c.dig_T1))) 12
      * c.dig_T3)) 14

/-- compensateTemperature: returns (temperature in 0.01 degC, new t_fine).
The source computes var1, var2, sets t_fine = var1 + var2 and returns
(t_fine * 5 + 128) >> 8, all in int32 arithmetic. -/
def compensateTemperature (c : BME280_CalibrationData) (adcTemp0 : Int) : Int × Int :=
  let adcTemp := w32 adcTemp0
  let var1 := tVar1 c adcTemp
  let var2 := tVar2 c adcTemp
  let tf := w32 (var1 + var2)
  (asr (w32 (w32 (tf * 5) + 128)) 8, tf)

/-- Assembly of a 20-bit raw value from a 3-byte burst read:
(buffer[0] << 12) | (buffer[1] << 4) | (buffer[2] >> 4). -/
def assembleRaw20 (b0 b1 b2 : Nat) : Int :=
  (((b0 <<< 12) ||| (b1 <<< 4) ||| (b2 >>> 4) : Nat) : Int)

/-- The raw temperature ADC value readTemperature assembles from the
3-byte burst read at BME280_REG_TEMP_MSB. -/
def tempRaw (regs : Regs) : Int :=
  assembleRaw20 (readReg regs BME280_REG_TEMP_MSB)
    (readReg regs (BME280_REG_TEMP_MSB + 1))
    (readReg regs (BME280_REG_TEMP_MSB + 2))

/-- readTemperature: burst-read 3 bytes, assemble, compensate, divide by 100;
side effect: store the new t_fine. -/
def readTemperature (s : DriverState) (regs : Regs) : Rat × DriverState :=
  let r := compensateTemperature s.calibData (tempRaw regs)
  (((r.1 : Rat) / 100), { s with t_fine := r.2 })

/- === Pressure compensation (bme280_driver.cpp lines 229-251) === -/

/-- The P1-derived divisor of the pressure formula, from t_fine, dig_P3,
dig_P2, dig_P1 (cpp lines 232, 236-238):
var1 = (int64_t)t_fine - 128000;
var1 = ((var1*var1*P3) >> 8) + ((var1*P2) << 12);
var1 = ((((int64_t)1 << 47) + var1)) * P1 >> 33. -/
def pressureVar1 (tFine dP1 dP2 dP3 : Int) : Int :=
  let v := w64 (w64 tFine - 128000)
  let v2 := w64 (asr (w64 (w64 (v * v) * dP3)) 8 + w64 (w64 (v * dP2) * 4096))
  asr (w64 (w64 (140737488355328 + v2) * dP1)) 33

/-- compensatePressure: the 64-bit datasheet formula; returns 0 when the
P1-derived divisor is zero, otherwise the pressure in Pa as a uint32_t. -/
def compensatePressure (c : BME280_CalibrationData) (tFine : Int) (adcPres0 : Int) : Int :=
  let adcPres := w32 adcPres0
  let var1 := w64 (w64 tFine - 128000)
  let var2a := w64 (w64 (var1 * var1) * c.dig_P6)
  let var2b := w64 (var2a + w64 (w64 (var1 * c.dig_P5) * 131072))
  let var2 := w64 (var2b + w64 (c.dig_P4 * 34359738368))
  let var1f := pressureVar1 tFine c.dig_P1 c.dig_P2 c.dig_P3
  if var1f = 0 then 0
  else
    let p0 := w64 (1048576 - adcPres)
    let p1 := w64 (Int.tdiv (w64 (w64 (w64 (p0 * 2147483648) - var2) * 3125)) var1f)
    let v1 := asr (w64 (w64 (c.dig_P9 * asr p1 13) * asr p1 13)) 25
    let v2 := asr (w64 (c.dig_P8 * p1)) 19
    let p2 := w64 (asr (w64 (w64 (p1 + v1) + v2)) 8 + w64 (c.dig_P7 * 16))
    toU32 p2

/-- The raw pressure ADC value readPressure assembles from the 3-byte burst
read at BME280_REG_PRESS_MSB. -/
def presRaw (regs : Regs) : Int :=
  assembleRaw20 (readReg regs BME280_REG_PRESS_MSB)
    (readReg regs (BME280_REG_PRESS_MSB + 1))
    (readReg regs (BME280_REG_PRESS_MSB + 2))

/-- readPressure: ensure t_fine exists (trigger a temperature read when
t_fine == 0), burst-read 3 bytes, compensate, convert Pa to hPa. -/
def readPressure (s : DriverState) (regs : Regs) : Rat × DriverState :=
  let s1 := if s.t_fine = 0 then (readTemperature s regs).2 else s
  let presComp := compensatePressure s1.calibData s1.t_fine (presRaw regs)
  (((presComp : Rat) / 100), s1)

/- === Humidity compensation (bme280_driver.cpp lines 254-272) === -/

/-- The final clamp of the humidity formula to [0, 419430400]
(cpp lines 268-269). -/
def humClamp (v : Int) : Int :=
  let v1 := if v < 0 then 0 else v
  if v1 > 419430400 then 419430400 else v1

/-- compensateHumidity: the nested int32 datasheet formula, clamped, then
right-shifted by 12 and cast to uint32_t (humidity in Q22.10). -/
def compensateHumidity (c : BME280_CalibrationData) (tFine : Int) (adcHum0 : Int) : Int :=
  let adcHum := w32 adcHum0
  let va := w32 (tFine - 76800)
  let termA := w32 (w32 (w32 (w32 (adcHum * 16384) - w32 (c.dig_H4 * 1048576))
      - w32 (c.dig_H5 * va)) + 16384)
  let b1 := asr (w32 (va * c.dig_H6)) 10
  let b2 := w32 (asr (w32 (va * c.dig_H3)) 11 + 32768)
  let b3 := asr (w32 (b1 * b2)) 10
  let b4 := w32 (b3 + 2097152)
  let b5 := w32 (w32 (b4 * c.dig_H2) + 8192)
  let vb := w32 (asr termA 15 * asr b5 14)
  let vc := w32 (vb - asr (w32 (asr (w32 (asr vb 15 * asr vb 15)) 7 * c.dig_H1)) 4)
  toU32 (asr (humClamp vc) 12)

/-- The raw humidity ADC value readHumidity assembles from the 2-byte burst
read at BME280_REG_HUM_MSB: (buffer[0] << 8) | buffer[1]. -/
def humRaw (regs : Regs) : Int :=
  (((readReg regs BME280_REG_HUM_MSB <<< 8) ||| readReg regs (BME280_REG_HUM_MSB + 1) : Nat) : Int)

/-- readHumidity: ensure t_fine exists, burst-read 2 bytes, compensate,
divide by 1024 (Q22.10 to percent). -/
def readHumidity (s : DriverState) (regs : Regs) : Rat × DriverState :=
  let s1 := if s.t_fine = 0 then (readTemperature s regs).2 else s
  let humComp := compensateHumidity s1.calibData s1.t_fine (humRaw regs)
  (((humComp : Rat) / 1024), s1)

/-- getChipID: single read of the identity register. -/
def getChipID (regs : Regs) : Nat := readReg regs BME280_REG_ID

/-- isMeasuring: bit 3 of the status register. -/
def isMeasuring (regs : Regs) : Bool := (readReg regs BME280_REG_STATUS &&& 0x08) != 0

/- === Initialization (begin, cpp lines 10-47) === -/

/-- A bus transaction issued by the driver: a single-register read, a burst
read of a register block, or a single-register write. -/
inductive BusEvent where
  | readEv : Nat → BusEvent
  | burstEv : Nat → Nat → BusEvent
  | writeEv : Nat → Nat → BusEvent
deriving Repr, DecidableEq

/-- Device model for initialization: responses may vary over time, indexed by
the number of read transactions issued so far (so the status register can
change between polls). Responses are bytes (reduced mod 256 at use sites). -/
structure Device where
  read : Nat → Nat → Nat
  burst : Nat → Nat → Nat → Nat

/-- The calibration-copy wait of begin(): poll the status register until
bit 0 is clear. The source loops unconditionally; the model carries fuel and
answers none when the loop has not exited within the given number of polls.
Returns the next read index and the trace of status reads. -/
def pollWait (d : Device) : Nat → Nat → Option (Nat × List BusEvent)
  | 0, _ => none
  | fuel + 1, t =>
    if (d.read t BME280_REG_STATUS % 256) &&& 0x01 ≠ 0 then
      match pollWait d fuel (t + 1) with
      | none => none
      | some (t', tr) => some (t', BusEvent.readEv BME280_REG_STATUS :: tr)
    else
      some (t + 1, [BusEvent.readEv BME280_REG_STATUS])

/-- readCalibrationData (cpp lines 179-209): a 24-byte burst at 0x88, a single
read of dig_H1 at 0xA1, and a 7-byte burst at 0xE1, decoded into the record.
The read index t is the index of the first of the three read transactions. -/
def decodeCalib (d : Device) (t : Nat) : BME280_CalibrationData :=
  let b : Nat → Nat := fun i => d.burst t BME280_REG_DIG_T1 i % 256
  let h1 := d.read (t + 1) BME280_REG_DIG_H1 % 256
  let hb : Nat → Nat := fun i => d.burst (t + 2) BME280_REG_DIG_H2 i % 256
  { dig_T1 := (((b 1 <<< 8) ||| b 0 : Nat) : Int)
  , dig_T2 := s16 ((b 3 <<< 8) ||| b 2)
  , dig_T3 := s16 ((b 5 <<< 8) ||| b 4)
  , dig_P1 := (((b 7 <<< 8) ||| b 6 : Nat) : Int)
  , dig_P2 := s16 ((b 9 <<< 8) ||| b 8)
  , dig_P3 := s16 ((b 11 <<< 8) ||| b 10)
  , dig_P4 := s16 ((b 13 <<< 8) ||| b 12)
  , dig_P5 := s16 ((b 15 <<< 8) ||| b 14)
  , dig_P6 := s16 ((b 17 <<< 8) ||| b 16)
  , dig_P7 := s16 ((b 19 <<< 8) ||| b 18)
  , dig_P8 := s16 ((b 21 <<< 8) ||| b 20)
  , dig_P9 := s16 ((b 23 <<< 8) ||| b 22)
  , dig_H1 := (h1 : Int)
  , dig_H2 := s16 ((hb 1 <<< 8) ||| hb 0)
  , dig_H3 := (hb 2 : Int)
  , dig_H4 := s16 ((hb 3 <<< 4) ||| (hb 4 &&& 0x0F))
  , dig_H5 := s16 ((hb 5 <<< 4) ||| (hb 4 >>> 4))
  , dig_H6 := s8 (hb 6) }

/-- The control byte begin() writes to the measurement-control register:
(BME280_TEMP_OSR << 5) | (BME280_PRES_OSR << 2) | BME280_MODE. -/
def ctrlMeasByte : Nat :=
  (BME280_TEMP_OSR <<< 5) ||| (BME280_PRES_OSR <<< 2) ||| BME280_MODE

/-- begin(): identity check, soft reset, calibration-copy wait, calibration
read, then the three configuration writes. Returns none when the poll loop
exhausts its fuel (models non-termination), otherwise the boolean result,
the updated driver state and the full bus trace. -/
def begin (d : Device) (fuel : Nat) (s : DriverState) : Option (Bool × DriverState × List BusEvent) :=
  let chipId := d.read 0 BME280_REG_ID % 256
  if chipId ≠ 0x60 then some (false, s, [BusEvent.readEv BME280_REG_ID])
  else
    match pollWait d fuel 1 with
    | none => none
    | some (t, trPoll) =>
      let calib := decodeCalib d t
      let tr := [BusEvent.readEv BME280_REG_ID, BusEvent.writeEv BME280_REG_RESET 0xB6]
        ++ trPoll
        ++ [BusEvent.burstEv BME280_REG_DIG_T1 24, BusEvent.readEv BME280_REG_DIG_H1,
            BusEvent.burstEv BME280_REG_DIG_H2 7,
            BusEvent.writeEv BME280_REG_CTRL_HUM BME280_HUM_OSR,
            BusEvent.writeEv BME280_REG_CTRL_MEAS ctrlMeasByte,
            BusEvent.writeEv BME280_REG_CONFIG 0x00]
      some (true, { s with calibData := calib }, tr)

/-- Does a bus event write one of the three configuration registers
(humidity control, measurement control, config)? -/
def isCtrlCfgWrite : BusEvent → Bool
  | BusEvent.writeEv r _ =>
      r == BME280_REG_CTRL_HUM || r == BME280_REG_CTRL_MEAS || r == BME280_REG_CONFIG
  | _ => false

/-- Is a bus event any register write? -/
def isWriteEv : BusEvent → Bool
  | BusEvent.writeEv _ _ => true
  | _ => false

/- === Sequences of public read/status operations (for the calibration
immutability invariant) === -/

/-- One public post-begin operation of the driver. -/
inductive SensorOp where
  | temp | pres | hum | chip | meas
deriving Repr, DecidableEq

/-- State effect of one public operation (getChipID and isMeasuring only read
the bus; the three measurement reads may update t_fine). -/
def runOp (s : DriverState) (regs : Regs) : SensorOp → DriverState
  | SensorOp.temp => (readTemperature s regs).2
  | SensorOp.pres => (readPressure s regs).2
  | SensorOp.hum => (readHumidity s regs).2
  | SensorOp.chip => s
  | SensorOp.meas => s

/-- State effect of a sequence of public operations. -/
def runOps (regs : Regs) : DriverState → List SensorOp → DriverState
  | s, [] => s
  | s, op :: ops => runOps regs (runOp s regs op) ops

/- === Helper lemmas === -/

theorem w32_eq_self {x : Int} (h0 : 0 ≤ x) (h1 : x < 2147483648) : w32 x = x := by
  unfold w32
  omega

theorem readReg_lt (regs : Regs) (r : Nat) : readReg regs r < 256 :=
  Nat.mod_lt _ (by norm_num)

theorem assembleRaw20_bounds {a b c : Nat} (ha : a < 256) (hb : b < 256) (hc : c < 256) :
    0 ≤ assembleRaw20 a b c ∧ assembleRaw20 a b c < 1048576 := by
  have h1 : a <<< 12 < 2 ^ 20 := by rw [Nat.shiftLeft_eq]; omega
  have h2 : b <<< 4 < 2 ^ 20 := by rw [Nat.shiftLeft_eq]; omega
  have h3 : c >>> 4 < 2 ^ 20 := by rw [Nat.shiftRight_eq_div_pow]; omega
  have h4 : (a <<< 12) ||| (b <<< 4) ||| (c >>> 4) < 2 ^ 20 :=
    Nat.or_lt_two_pow (Nat.or_lt_two_pow h1 h2) h3
  unfold assembleRaw20
  constructor
  · exact Int.natCast_nonneg _
  · exact_mod_cast h4

theorem tempRaw_bounds (regs : Regs) : 0 ≤ tempRaw regs ∧ tempRaw regs < 1048576 :=
  assembleRaw20_bounds (readReg_lt regs _) (readReg_lt regs _) (readReg_lt regs _)

theorem w32_tempRaw (regs : Regs) : w32 (tempRaw regs) = tempRaw regs :=
  w32_eq_self (tempRaw_bounds regs).1 (by have := (tempRaw_bounds regs).2; omega)

theorem humClamp_bounds (v : Int) : 0 ≤ humClamp v ∧ humClamp v ≤ 419430400 := by
  simp only [humClamp]
  split_ifs <;> omega

theorem compensateHumidity_bounds (c : BME280_CalibrationData) (tFine adcHum : Int) :
    0 ≤ compensateHumidity c tFine adcHum ∧ compensateHumidity c tFine adcHum ≤ 102400 := by
  have key : ∀ v : Int, 0 ≤ toU32 (asr (humClamp v) 12) ∧ toU32 (asr (humClamp v) 12) ≤ 102400 := by
    intro v
    have h := humClamp_bounds v
    rw [asr_eq_ediv, toU32]
    norm_num
    omega
  exact key _

theorem andF_lt (x : Nat) : x &&& 0x0F < 16 := by
  have h : x &&& 0x0F ≤ 0x0F := Nat.and_le_right
  omega

theorem ratDiv1024_bounds (n : Int) (h0 : 0 ≤ n) (h1 : n ≤ 102400) :
    0 ≤ (n : Rat) / 1024 ∧ (n : Rat) / 1024 ≤ 100 := by
  constructor
  · apply div_nonneg _ (by norm_num)
    exact_mod_cast h0
  · rw [div_le_iff₀ (by norm_num)]
    have : (n : Rat) ≤ 102400 := by exact_mod_cast h1
    linarith

/- === Claims === -/

/-- C2: for every calibration coefficient set, every t_fine value and every
raw humidity ADC value, the value readHumidity returns lies in [0, 100]:
the clamp of the compensation formula bounds the Q22.10 value by 102400, so
the public result (divided by 1024) never exceeds 100 nor falls below 0. -/
theorem claim_C2_humidity_in_range (s : DriverState) (regs : Regs) :
    0 ≤ (readHumidity s regs).1 ∧ (readHumidity s regs).1 ≤ 100 := by
  have h := compensateHumidity_bounds
    (if s.t_fine = 0 then (readTemperature s regs).2 else s).calibData
    (if s.t_fine = 0 then (readTemperature s regs).2 else s).t_fine
    (humRaw regs)
  have heq : (readHumidity s regs).1 =
      ((compensateHumidity
        (if s.t_fine = 0 then (readTemperature s regs).2 else s).calibData
        (if s.t_fine = 0 then (readTemperature s regs).2 else s).t_fine
        (humRaw regs) : Int) : Rat) / 1024 := rfl
  rw [heq]
  exact ratDiv1024_bounds _ h.1 h.2

/-- C5: compensateTemperature applied to the 20-bit raw value assembled as
(msb << 12) | (lsb << 4) | (xlsb >> 4) computes the two-term datasheet
formula: it sets t_fine to the int32 sum of the two terms and returns
(t_fine * 5 + 128) >> 8 (hundredths of a degree), and readTemperature
returns that integer result divided by 100 while storing the new t_fine. -/
theorem claim_C5_temperature_formula (c : BME280_CalibrationData) (tf : Int) (regs : Regs) :
    readTemperature ⟨c, tf⟩ regs
      = (((compensateTemperature c (tempRaw regs)).1 : Rat) / 100,
          ⟨c, (compensateTemperature c (tempRaw regs)).2⟩)
    ∧ (compensateTemperature c (tempRaw regs)).2
      = w32 (tVar1 c (tempRaw regs) + tVar2 c (tempRaw regs))
    ∧ (compensateTemperature c (tempRaw regs)).1
      = asr (w32 (w32 ((compensateTemperature c (tempRaw regs)).2 * 5) + 128)) 8 := by
  refine ⟨rfl, ?_, ?_⟩
  · simp only [compensateTemperature]
    rw [w32_tempRaw]
  · simp only [compensateTemperature]

/-- C1: whenever the P1-derived divisor term of the pressure formula is zero,
compensatePressure returns 0 before reaching the division (for any raw
pressure ADC value), and readPressure therefore returns exactly 0 and leaves
the state unchanged. -/
theorem claim_C1_pressure_zero_divisor (s : DriverState) (regs : Regs) (adcPres : Int)
    (hz : pressureVar1 s.t_fine s.calibData.dig_P1 s.calibData.dig_P2 s.calibData.dig_P3 = 0)
    (ht : s.t_fine ≠ 0) :
    compensatePressure s.calibData s.t_fine adcPres = 0
    ∧ readPressure s regs = (0, s) := by
  have hall : ∀ a : Int, compensatePressure s.calibData s.t_fine a = 0 := by
    intro a
    simp only [compensatePressure]
    rw [hz]
    simp
  refine ⟨hall adcPres, ?_⟩
  simp only [readPressure, if_neg ht]
  rw [hall (presRaw regs)]
  norm_num

/-- C3: a pressure or humidity read issued while t_fine still holds its
construction-time value 0 first performs one full temperature pass, so its
result (value and final state) equals that of an explicit readTemperature
followed by the same read. -/
theorem claim_C3_auto_temperature_pass (c : BME280_CalibrationData) (regs : Regs) :
    readPressure ⟨c, 0⟩ regs = readPressure (readTemperature ⟨c, 0⟩ regs).2 regs
    ∧ readHumidity ⟨c, 0⟩ regs = readHumidity (readTemperature ⟨c, 0⟩ regs).2 regs := by
  have hT : ∀ tf : Int, (readTemperature ⟨c, tf⟩ regs).2
      = ⟨c, (compensateTemperature c (tempRaw regs)).2⟩ := fun _ => rfl
  constructor
  · simp only [readPressure, hT]
    by_cases h : (compensateTemperature c (tempRaw regs)).2 = 0
    · simp [h, hT]
    · simp [h, hT]
  · simp only [readHumidity, hT]
    by_cases h : (compensateTemperature c (tempRaw regs)).2 = 0
    · simp [h, hT]
    · simp [h, hT]

/-- C10: the nibble-packed humidity coefficients dig_H4 and dig_H5 decoded by
readCalibrationData are always in [0, 4095]: they are assembled from unsigned
bytes without sign extension, so they can never be negative even though the
declared field type is signed 16-bit. -/
theorem claim_C10_h4_h5_nonneg (d : Device) (t : Nat) :
    (0 ≤ (decodeCalib d t).dig_H4 ∧ (decodeCalib d t).dig_H4 ≤ 4095)
    ∧ (0 ≤ (decodeCalib d t).dig_H5 ∧ (decodeCalib d t).dig_H5 ≤ 4095) := by
  have hb : ∀ i, d.burst (t + 2) BME280_REG_DIG_H2 i % 256 < 256 :=
    fun i => Nat.mod_lt _ (by norm_num)
  have pack : ∀ a b : Nat, a < 256 → b < 16 → (a <<< 4) ||| b < 4096 := by
    intro a b ha hbb
    have h1 : a <<< 4 < 2 ^ 12 := by rw [Nat.shiftLeft_eq]; omega
    have h2 : b < 2 ^ 12 := by omega
    have := Nat.or_lt_two_pow h1 h2
    omega
  have h4 : ((d.burst (t + 2) BME280_REG_DIG_H2 3 % 256) <<< 4)
      ||| ((d.burst (t + 2) BME280_REG_DIG_H2 4 % 256) &&& 0x0F) < 4096 :=
    pack _ _ (hb 3) (andF_lt (d.burst (t + 2) BME280_REG_DIG_H2 4 % 256))
  have hsr : (d.burst (t + 2) BME280_REG_DIG_H2 4 % 256) >>> 4 < 16 := by
    rw [Nat.shiftRight_eq_div_pow]
    have := hb 4
    omega
  have h5 : ((d.burst (t + 2) BME280_REG_DIG_H2 5 % 256) <<< 4)
      ||| ((d.burst (t + 2) BME280_REG_DIG_H2 4 % 256) >>> 4) < 4096 :=
    pack _ _ (hb 5) hsr
  have s16small : ∀ n : Nat, n < 4096 → s16 n = (n : Int) := by
    intro n hn
    unfold s16
    rw [if_pos (by omega)]
  constructor
  · show (0 ≤ s16 _ ∧ s16 _ ≤ 4095)
    rw [s16small _ h4]
    constructor
    · exact Int.natCast_nonneg _
    · exact_mod_cast Nat.lt_succ_iff.mp h4
  · show (0 ≤ s16 _ ∧ s16 _ ≤ 4095)
    rw [s16small _ h5]
    constructor
    · exact Int.natCast_nonneg _
    · exact_mod_cast Nat.lt_succ_iff.mp h5

theorem readTemperature_snd (s : DriverState) (regs : Regs) :
    (readTemperature s regs).2
      = ⟨s.calibData, (compensateTemperature s.calibData (tempRaw regs)).2⟩ := rfl

theorem runOp_calibData (s : DriverState) (regs : Regs) (op : SensorOp) :
    (runOp s regs op).calibData = s.calibData := by
  cases op with
  | temp => rw [show runOp s regs SensorOp.temp = (readTemperature s regs).2 from rfl,
      readTemperature_snd]
  | pres =>
    show (if s.t_fine = 0 then (readTemperature s regs).2 else s).calibData = s.calibData
    split
    · rw [readTemperature_snd]
    · rfl
  | hum =>
    show (if s.t_fine = 0 then (readTemperature s regs).2 else s).calibData = s.calibData
    split
    · rw [readTemperature_snd]
    · rfl
  | chip => rfl
  | meas => rfl

/-- C8: no sequence of public read/status operations ever modifies the
calibration record: after any sequence the state differs from the initial
one at most in t_fine. In particular the calibration data obtained by a
successful begin() stays intact under all later reads. -/
theorem claim_C8_calibration_immutable (regs : Regs) (s : DriverState) (ops : List SensorOp) :
    (runOps regs s ops).calibData = s.calibData
    ∧ runOps regs s ops = ⟨s.calibData, (runOps regs s ops).t_fine⟩ := by
  have key : ∀ ops : List SensorOp, ∀ s : DriverState,
      (runOps regs s ops).calibData = s.calibData := by
    intro ops
    induction ops with
    | nil => intro s; rfl
    | cons op rest ih =>
      intro s
      show (runOps regs (runOp s regs op) rest).calibData = s.calibData
      rw [ih (runOp s regs op), runOp_calibData]
  refine ⟨key ops s, ?_⟩
  have h := key ops s
  cases hst : runOps regs s ops with
  | mk cd tf =>
    rw [hst] at h
    simp only at h
    rw [h]

/- === Lemmas about the begin() trace === -/

theorem pollWait_no_cfg_writes (d : Device) :
    ∀ fuel t t' tr, pollWait d fuel t = some (t', tr) → tr.filter isCtrlCfgWrite = [] := by
  intro fuel
  induction fuel with
  | zero => intro t t' tr h; exact absurd h (by simp [pollWait])
  | succ n ih =>
    intro t t' tr h
    rw [pollWait] at h
    split at h
    · cases hrec : pollWait d n (t + 1) with
      | none => rw [hrec] at h; cases h
      | some p =>
        rw [hrec] at h
        injection h with h1
        injection h1 with h2 h3
        rw [← h3]
        show List.filter isCtrlCfgWrite (BusEvent.readEv BME280_REG_STATUS :: p.2) = []
        rw [List.filter_cons_of_neg (by decide)]
        exact ih (t + 1) p.1 p.2 (by rw [hrec])
    · injection h with h1
      injection h1 with h2 h3
      rw [← h3]
      decide

/-- Shape of the trace and state of every successful begin() run. -/
theorem begin_true_trace (d : Device) (fuel : Nat) (s s' : DriverState) (tr : List BusEvent)
    (h : begin d fuel s = some (true, s', tr)) :
    ∃ t trPoll, pollWait d fuel 1 = some (t, trPoll)
      ∧ trPoll.filter isCtrlCfgWrite = []
      ∧ s' = { s with calibData := decodeCalib d t }
      ∧ tr = [BusEvent.readEv BME280_REG_ID, BusEvent.writeEv BME280_REG_RESET 0xB6]
          ++ trPoll
          ++ [BusEvent.burstEv BME280_REG_DIG_T1 24, BusEvent.readEv BME280_REG_DIG_H1,
              BusEvent.burstEv BME280_REG_DIG_H2 7,
              BusEvent.writeEv BME280_REG_CTRL_HUM BME280_HUM_OSR,
              BusEvent.writeEv BME280_REG_CTRL_MEAS ctrlMeasByte,
              BusEvent.writeEv BME280_REG_CONFIG 0x00] := by
  rw [begin] at h
  split at h
  · injection h with h1
    injection h1 with h2 h3
    cases h2
  · cases hrec : pollWait d fuel 1 with
    | none => rw [hrec] at h; cases h
    | some p =>
      obtain ⟨t1, trPoll1⟩ := p
      rw [hrec] at h
      injection h with h1
      injection h1 with h2 h3
      injection h3 with h4 h5
      exact ⟨t1, trPoll1, rfl, pollWait_no_cfg_writes d fuel 1 t1 trPoll1 hrec,
        h4.symm, h5.symm⟩

/-- C4: when the identity register returns any byte other than 0x60, begin()
returns false, the full bus trace is the single identity-register read, and
in particular no register write (reset, calibration read or configuration)
is ever issued. -/
theorem claim_C4_identity_mismatch (d : Device) (fuel : Nat) (s : DriverState)
    (h : d.read 0 BME280_REG_ID % 256 ≠ 0x60) :
    begin d fuel s = some (false, s, [BusEvent.readEv BME280_REG_ID])
    ∧ ∀ e ∈ [BusEvent.readEv BME280_REG_ID], isWriteEv e = false := by
  constructor
  · rw [begin, if_pos h]
  · intro e he
    rw [List.mem_singleton] at he
    rw [he]
    rfl

/-- C6: in every successful begin() run the writes to the three configuration
registers occur exactly once each and in the order humidity control, then
measurement control, then config; in particular the measurement-control
register is never written before the humidity-control register. -/
theorem claim_C6_config_write_order (d : Device) (fuel : Nat) (s s' : DriverState)
    (tr : List BusEvent) (h : begin d fuel s = some (true, s', tr)) :
    tr.filter isCtrlCfgWrite
      = [BusEvent.writeEv BME280_REG_CTRL_HUM BME280_HUM_OSR,
         BusEvent.writeEv BME280_REG_CTRL_MEAS ctrlMeasByte,
         BusEvent.writeEv BME280_REG_CONFIG 0x00] := by
  obtain ⟨t, trPoll, hp, hf, hs, htr⟩ := begin_true_trace d fuel s s' tr h
  rw [htr, List.filter_append, List.filter_append, hf]
  rfl

/-- C7: the byte begin() writes to the measurement-control register is
(BME280_TEMP_OSR << 5) | (BME280_PRES_OSR << 2) | BME280_MODE: temperature
oversampling in bits 7-5, pressure oversampling in bits 4-2, the power mode
in bits 1-0; with the configured constants this byte equals 0x27, and every
successful begin() run writes exactly this byte to that register. -/
theorem claim_C7_ctrl_meas_byte (d : Device) (fuel : Nat) (s s' : DriverState)
    (tr : List BusEvent) (h : begin d fuel s = some (true, s', tr)) :
    BusEvent.writeEv BME280_REG_CTRL_MEAS ctrlMeasByte ∈ tr
    ∧ ctrlMeasByte = 0x27
    ∧ (ctrlMeasByte >>> 5) &&& 0x07 = BME280_TEMP_OSR
    ∧ (ctrlMeasByte >>> 2) &&& 0x07 = BME280_PRES_OSR
    ∧ ctrlMeasByte &&& 0x03 = BME280_MODE := by
  obtain ⟨t, trPoll, hp, hf, hs, htr⟩ := begin_true_trace d fuel s s' tr h
  refine ⟨?_, by decide, by decide, by decide, by decide⟩
  rw [htr]
  simp [List.mem_append]

/-- C9: the calibration-copy wait of begin() is an unbounded polling loop: on
a device whose status register forever reports bit 0 set, a begin() run that
passes the identity check never terminates; no fuel bound makes it return,
so there is no maximum attempt count and no timeout failure path. -/
theorem claim_C9_unbounded_poll (d : Device) (s : DriverState)
    (hid : d.read 0 BME280_REG_ID % 256 = 0x60)
    (hb : ∀ t, (d.read t BME280_REG_STATUS % 256) &&& 0x01 ≠ 0) :
    ∀ fuel, begin d fuel s = none := by
  have hpoll : ∀ fuel t, pollWait d fuel t = none := by
    intro fuel
    induction fuel with
    | zero => intro t; rfl
    | succ n ih =>
      intro t
      rw [pollWait, if_pos (hb t), ih (t + 1)]
  intro fuel
  rw [begin, if_neg (by rw [hid]; exact fun hne => hne rfl), hpoll fuel 1]

/- === Concrete instances for the witnesses === -/

/-- An all-zero calibration record (a degenerate but representable
coefficient set: dig_P1 = 0 makes the pressure divisor vanish). -/
def calibZero : BME280_CalibrationData :=
  ⟨0, 0, 0, 0, 0, 0, 0, 0, 0, 0, 0, 0, 0, 0, 0, 0, 0, 0⟩

/-- Driver state with the degenerate coefficients and a nonzero t_fine. -/
def sC1 : DriverState := ⟨calibZero, 1⟩

/-- Fresh driver state as left by the constructor (t_fine = 0). -/
def s0W : DriverState := ⟨calibZero, 0⟩

/-- A register map answering zero everywhere. -/
def regsZero : Regs := fun _ => 0

/-- A device answering 0 everywhere: its identity byte is not 0x60. -/
def dBad : Device := ⟨fun _ _ => 0, fun _ _ _ => 0⟩

/-- A device with the right identity byte whose status register reads with
bit 0 clear, so begin() succeeds. -/
def dOk : Device :=
  ⟨fun _ r => if r = BME280_REG_STATUS then 0 else 0x60, fun _ _ _ => 0⟩

/-- The driver state after a successful begin() against dOk. -/
def sOk : DriverState :=
  ⟨⟨0, 0, 0, 0, 0, 0, 0, 0, 0, 0, 0, 0, 0x60, 0, 0, 0, 0, 0⟩, 0⟩

/-- The bus trace of a successful begin() against dOk. -/
def trOk : List BusEvent :=
  [BusEvent.readEv BME280_REG_ID, BusEvent.writeEv BME280_REG_RESET 0xB6,
   BusEvent.readEv BME280_REG_STATUS,
   BusEvent.burstEv BME280_REG_DIG_T1 24, BusEvent.readEv BME280_REG_DIG_H1,
   BusEvent.burstEv BME280_REG_DIG_H2 7,
   BusEvent.writeEv BME280_REG_CTRL_HUM BME280_HUM_OSR,
   BusEvent.writeEv BME280_REG_CTRL_MEAS ctrlMeasByte,
   BusEvent.writeEv BME280_REG_CONFIG 0x00]

/-- A device with the right identity byte whose status register always reads
busy (bit 0 set), so the calibration-copy wait never exits. -/
def dBusy : Device := ⟨fun _ r => if r = BME280_REG_ID then 0x60 else 1, fun _ _ _ => 0⟩

theorem claim_C1_witness :
    pressureVar1 sC1.t_fine sC1.calibData.dig_P1 sC1.calibData.dig_P2 sC1.calibData.dig_P3 = 0
    ∧ sC1.t_fine ≠ 0
    ∧ (compensatePressure sC1.calibData sC1.t_fine 7 = 0
       ∧ readPressure sC1 regsZero = (0, sC1)) :=
  ⟨by decide, by decide,
   claim_C1_pressure_zero_divisor sC1 regsZero 7 (by decide) (by decide)⟩

theorem claim_C4_witness :
    dBad.read 0 BME280_REG_ID % 256 ≠ 0x60
    ∧ (begin dBad 0 s0W = some (false, s0W, [BusEvent.readEv BME280_REG_ID])
       ∧ ∀ e ∈ [BusEvent.readEv BME280_REG_ID], isWriteEv e = false) :=
  ⟨by decide, claim_C4_identity_mismatch dBad 0 s0W (by decide)⟩

theorem claim_C6_witness :
    List.filter isCtrlCfgWrite trOk
      = [BusEvent.writeEv BME280_REG_CTRL_HUM BME280_HUM_OSR,
         BusEvent.writeEv BME280_REG_CTRL_MEAS ctrlMeasByte,
         BusEvent.writeEv BME280_REG_CONFIG 0x00] :=
  claim_C6_config_write_order dOk 1 s0W sOk trOk (by decide)

theorem claim_C7_witness :
    BusEvent.writeEv BME280_REG_CTRL_MEAS ctrlMeasByte ∈ trOk
    ∧ ctrlMeasByte = 0x27
    ∧ (ctrlMeasByte >>> 5) &&& 0x07 = BME280_TEMP_OSR
    ∧ (ctrlMeasByte >>> 2) &&& 0x07 = BME280_PRES_OSR
    ∧ ctrlMeasByte &&& 0x03 = BME280_MODE :=
  claim_C7_ctrl_meas_byte dOk 1 s0W sOk trOk (by decide)

theorem claim_C9_witness :
    dBusy.read 0 BME280_REG_ID % 256 = 0x60 ∧ begin dBusy 7 s0W = none :=
  ⟨by decide, claim_C9_unbounded_poll dBusy s0W (by decide)
    (fun t => show ((if BME280_REG_STATUS = BME280_REG_ID then 0x60 else 1) % 256) &&& 0x01 ≠ 0
      from by decide) 7⟩

end BME280
